import Mathlib

/-! Verification of the natural-language specification of
`src/closure/bin/build/closurebuilder.py` (monetate/closure-library) against a
shallow embedding of the code.  The orchestrator script is embedded directly;
its collaborators that are not part of the sources (`source.py`, `depstree.py`,
`treescan.py`, `jscompiler.py`, `os.path`) are modelled from the spec at their
boundary, each marked `Modelled from the spec:`. -/

namespace ClosureBuilder

/-- Python `\s` character class for byte strings: space, tab, newline,
carriage return, vertical tab, form feed. -/
def pySpace (c : Char) : Bool :=
  c == ' ' || c == '\t' || c == '\n' || c == '\r' || c == '\x0b' || c == '\x0c'

/-- Python 2 `str.splitlines`: splits on `\n`, `\r`, and `\r\n`; a trailing
terminator does not produce a final empty line. -/
def splitLinesGo : List Char → List Char → List (List Char)
  | acc, [] => if acc.isEmpty then [] else [acc.reverse]
  | acc, '\r' :: '\n' :: rest => acc.reverse :: splitLinesGo [] rest
  | acc, '\r' :: rest => acc.reverse :: splitLinesGo [] rest
  | acc, '\n' :: rest => acc.reverse :: splitLinesGo [] rest
  | acc, c :: rest => splitLinesGo (c :: acc) rest

/-- Python 2 `str.splitlines` on the characters of a string. -/
def splitLines (t : List Char) : List (List Char) :=
  splitLinesGo [] t

/-- `os.path.basename` on a POSIX path: everything after the last `/`. -/
def basename (p : String) : String :=
  String.mk ((p.data.reverse.takeWhile (fun c => c != '/')).reverse)

/-- A scanned source file.  The code's `_PathSource` remembers the path it was
read from together with the text read from it. -/
structure Src where
  path : String
  text : String
deriving DecidableEq, Repr

/-- Line 172-180 (`_IsClosureBaseFile`): a source is the Closure base file iff
the basename of its path is `base.js` and some line of its text starts with
the literal `var goog = goog || {};` (braces escaped here). -/
def IsClosureBaseFile (s : Src) : Bool :=
  basename s.path == "base.js" &&
    (splitLines s.text.data).any (fun l => List.isPrefixOf "var goog = goog || \x7b\x7d;".data l)

/-- Drop an exact literal from the front of a character list, or fail. -/
def dropLit : List Char → List Char → Option (List Char)
  | [], t => some t
  | _ :: _, [] => none
  | p :: ps, c :: cs => if p == c then dropLit ps cs else none

/-- Modelled from the spec: `source.py` is not under `src/`.  Spec 4.1 and 6:
the Source Descriptor recognizes, line by line and tolerating leading
whitespace, the declaration forms `goog.provide("<ns>");` and
`goog.require("<ns>");` with a single quoted dot-delimited namespace literal. -/
def parseDeclLine (kw : List Char) (line : List Char) : Option String :=
  match dropLit (kw ++ ('(' :: '"' :: [])) (line.dropWhile pySpace) with
  | none => none
  | some r =>
    match r.dropWhile (fun c => c != '"') with
    | '"' :: ')' :: _ => some (String.mk (r.takeWhile (fun c => c != '"')))
    | _ => none

/-- Modelled from the spec: the namespaces a source provides, in declaration
order (spec 3, 4.1). -/
def srcProvides (s : Src) : List String :=
  (splitLines s.text.data).filterMap (parseDeclLine "goog.provide".data)

/-- Modelled from the spec: the namespaces a source requires, in declaration
order (spec 4.3: requires are visited "in the descriptor's declared requires
order"). -/
def srcRequires (s : Src) : List String :=
  (splitLines s.text.data).filterMap (parseDeclLine "goog.require".data)

/-- Modelled from the spec: `DuplicateProvideError(namespace, firstSource,
secondSource)` of spec 4.2. -/
inductive GraphErr where
  | duplicateProvide (ns : String) (first second : Src)
deriving DecidableEq, Repr

/-- Modelled from the spec: graph construction maps each provided namespace to
its single provider and fails if a namespace already has one (spec 4.2). -/
def addProvide (m : List (String × Src)) (ns : String) (s : Src) :
    Except GraphErr (List (String × Src)) :=
  match m.lookup ns with
  | some t => .error (.duplicateProvide ns t s)
  | none => .ok (m ++ [(ns, s)])

/-- Modelled from the spec: insert every namespace a source provides. -/
def addSource (m : List (String × Src)) (s : Src) :
    Except GraphErr (List (String × Src)) :=
  (srcProvides s).foldlM (fun acc ns => addProvide acc ns s) m

/-- Modelled from the spec: `DepsTree` construction (spec 4.2) over the
descriptors in iteration order. -/
def buildGraph (srcs : List Src) : Except GraphErr (List (String × Src)) :=
  srcs.foldlM addSource []

/-- Modelled from the spec: resolver errors of spec 4.3.  `outOfFuel` is an
artifact of the fueled embedding of the recursion and is never reached when
the fuel exceeds the traversal depth. -/
inductive ResolveErr where
  | unknownNamespace (ns : String)
  | circularDependency (chain : List String)
  | outOfFuel
deriving DecidableEq, Repr

/-- Modelled from the spec: the depth-first traversal of spec 4.3.  The
worklist is processed in order; each namespace is `resolved` (skipped),
`visiting` (cycle error), or is looked up, its requires visited with the
namespace pushed on the visiting stack, and its descriptor appended post-order
unless already emitted.  Returns the resolved namespaces and the output. -/
def resolveGo (g : List (String × Src)) :
    Nat → List String → List String → List String → List Src →
    Except ResolveErr (List String × List Src)
  | 0, _, _, _, _ => .error .outOfFuel
  | Nat.succ _, [], _, resolved, out => .ok (resolved, out)
  | Nat.succ fuel, ns :: rest, visiting, resolved, out =>
    if ns ∈ resolved then resolveGo g fuel rest visiting resolved out
    else if ns ∈ visiting then
      .error (.circularDependency (ns :: (visiting.takeWhile (fun v => v ≠ ns)).reverse ++ [ns]))
    else
      match g.lookup ns with
      | none => .error (.unknownNamespace ns)
      | some s =>
        match resolveGo g fuel (srcRequires s) (ns :: visiting) resolved out with
        | .error e => .error e
        | .ok (resolved2, out2) =>
          resolveGo g fuel rest visiting (ns :: resolved2)
            (if s ∈ out2 then out2 else out2 ++ [s])

/-- Modelled from the spec: `DepsTree.GetDependencies` (spec 4.3), started once
per requested namespace in request order with shared state. -/
def GetDependencies (g : List (String × Src)) (fuel : Nat) (req : List String) :
    Except ResolveErr (List Src) :=
  match resolveGo g fuel req [] [] [] with
  | .error e => .error e
  | .ok (_, out) => .ok out

/-! Python regular-expression behavior needed by the script, translated
character by character from the patterns the code builds. -/

/-- One pattern character of the dynamically built define pattern: the
property string is inserted unescaped, so its `.` characters are regex
wildcards matching any character except `\n`; all of its other characters
(letters, digits, `_`) are literals. -/
def dotMatch (p c : Char) : Bool :=
  if p == '.' then c != '\n' else p == c

/-- Match the property as a pattern against the front of the text, returning
the remainder. -/
def dropPat : List Char → List Char → Option (List Char)
  | [], t => some t
  | _ :: _, [] => none
  | p :: ps, c :: cs => if dotMatch p c then dropPat ps cs else none

/-- Regex fragment `\s*;` at a position: skip whitespace greedily, then
require a semicolon; returns the remainder after the semicolon. -/
def semiAfterWs (t : List Char) : Option (List Char) :=
  match t.dropWhile pySpace with
  | ';' :: rest => some rest
  | _ => none

/-- Regex fragment `(.*)\s*;`: the greedy group tries the longest prefix of
the current line first (`.` does not cross `\n`), then backtracks, so the
match ends at the first `\s*;` continuation reachable from the longest
possible group end.  Returns the group's capture and the text after the
match. -/
def findEndGo (r : List Char) : Nat → Option (List Char × List Char)
  | 0 => (semiAfterWs r).map (fun rest => ([], rest))
  | Nat.succ k =>
    match semiAfterWs (r.drop (Nat.succ k)) with
    | some rest => some (r.take (Nat.succ k), rest)
    | none => findEndGo r k

/-- Line 280: one anchored match of `re.compile('%s\s*=\s*(.*)\s*;' % prop)`
at the front of `t`, returning the whole match (group 0), the capture of
group 1, and the text after the match.  Maximal-munch for the two `\s*`
fragments is faithful: a shorter whitespace run can never make the required
`=` (not a whitespace character) or the trailing `\s*;` succeed when the
maximal run fails. -/
def matchAt (prop t : List Char) : Option (List Char × List Char × List Char) :=
  match dropPat prop t with
  | none => none
  | some r =>
    match r.dropWhile pySpace with
    | '=' :: r2 =>
      match findEndGo (r2.dropWhile pySpace)
          ((r2.dropWhile pySpace).takeWhile (fun c => c != '\n')).length with
      | none => none
      | some (grp, rem) => some (t.take (t.length - rem.length), grp, rem)
    | _ => none

/-- `re.search`: some position of the text matches. -/
def searchFound (prop : List Char) : List Char → Bool
  | [] => (matchAt prop []).isSome
  | c :: rest => (matchAt prop (c :: rest)).isSome || searchFound prop rest

/-- One element of a parsed replacement template: a literal chunk or a
backreference to a group of the match. -/
inductive Piece where
  | lit (cs : List Char)
  | group (n : Nat)
deriving DecidableEq, Repr

/-- Octal digit of Python's replacement-escape syntax. -/
def isOctDigitChar (c : Char) : Bool :=
  '0' ≤ c && c ≤ '7'

/-- Decimal value of a digit string. -/
def digitsVal (ds : List Char) : Nat :=
  ds.foldl (fun acc c => acc * 10 + (c.toNat - 48)) 0

/-- Octal value of an octal-digit string. -/
def octVal (ds : List Char) : Nat :=
  ds.foldl (fun acc c => acc * 8 + (c.toNat - 48)) 0

/-- The `ESCAPES` table of `sre_parse`: character escapes recognized in a
replacement template. -/
def escCharMap (c : Char) : Option Char :=
  if c == 'a' then some (Char.ofNat 7)
  else if c == 'b' then some (Char.ofNat 8)
  else if c == 'f' then some (Char.ofNat 12)
  else if c == 'n' then some (Char.ofNat 10)
  else if c == 'r' then some (Char.ofNat 13)
  else if c == 't' then some (Char.ofNat 9)
  else if c == 'v' then some (Char.ofNat 11)
  else if c == '\\' then some '\\'
  else none

/-- Python 2.7 `sre_parse.parse_template` for a pattern with `groups` capture
groups: `\g<number>` and `\1`-style backreferences (two digits are taken when
the second is a digit and the three-octal-digit form does not apply), `\0` and
three-digit octal escapes yielding the character of the value modulo 256,
character escapes from `ESCAPES`, and unknown escapes passed through
unchanged (Python 2 behavior).  `none` models the `sre_constants.error` or
`IndexError` raised for a bad escape, a malformed `\g<...>`, or a group
reference exceeding `groups`.  Fueled by one unit per consumed character;
`parseTemplate` supplies `length + 1`, which always suffices since every step
consumes at least one character. -/
def parseTemplateGo (groups : Nat) : Nat → List Char → Option (List Piece)
  | 0, _ => none
  | Nat.succ _, [] => some []
  | Nat.succ fuel, '\\' :: rest =>
    (match rest with
    | [] => none
    | 'g' :: rest2 =>
      (match rest2 with
      | '<' :: rest3 =>
        (match rest3.dropWhile (fun c => c != '>') with
        | '>' :: rest4 =>
          (let name := rest3.takeWhile (fun c => c != '>')
           if name.isEmpty then none
           else if name.all (fun c => c.isDigit) then
             (if digitsVal name ≤ groups then
               (parseTemplateGo groups fuel rest4).map (fun ps => Piece.group (digitsVal name) :: ps)
             else none)
           else none)
        | _ => none)
      | _ => none)
    | '0' :: rest2 =>
      (let ods := (rest2.takeWhile isOctDigitChar).take 2
       (parseTemplateGo groups fuel (rest2.drop ods.length)).map
         (fun ps => Piece.lit [Char.ofNat (octVal ods % 256)] :: ps))
    | d :: rest2 =>
      if d.isDigit then
        (match rest2 with
        | d2 :: rest3 =>
          if d2.isDigit then
            (match rest3 with
            | d3 :: rest4 =>
              if isOctDigitChar d && isOctDigitChar d2 && isOctDigitChar d3 then
                (parseTemplateGo groups fuel rest4).map
                  (fun ps => Piece.lit [Char.ofNat (octVal [d, d2, d3] % 256)] :: ps)
              else
                (if digitsVal [d, d2] ≤ groups then
                  (parseTemplateGo groups fuel rest3).map
                    (fun ps => Piece.group (digitsVal [d, d2]) :: ps)
                else none)
            | [] =>
              (if digitsVal [d, d2] ≤ groups then
                (parseTemplateGo groups fuel []).map
                  (fun ps => Piece.group (digitsVal [d, d2]) :: ps)
              else none))
          else
            (if digitsVal [d] ≤ groups then
              (parseTemplateGo groups fuel rest2).map (fun ps => Piece.group (digitsVal [d]) :: ps)
            else none)
        | [] =>
          (if digitsVal [d] ≤ groups then
            (parseTemplateGo groups fuel []).map (fun ps => Piece.group (digitsVal [d]) :: ps)
          else none))
      else
        (match escCharMap d with
        | some e => (parseTemplateGo groups fuel rest2).map (fun ps => Piece.lit [e] :: ps)
        | none => (parseTemplateGo groups fuel rest2).map (fun ps => Piece.lit ['\\', d] :: ps)))
  | Nat.succ fuel, c :: rest =>
    (parseTemplateGo groups fuel rest).map (fun ps => Piece.lit [c] :: ps)

/-- `sre_parse.parse_template` over a whole replacement string. -/
def parseTemplate (groups : Nat) (t : List Char) : Option (List Piece) :=
  parseTemplateGo groups (t.length + 1) t

/-- `sre_parse.expand_template`: the replacement for one match, given the
values of the match's groups (index 0 is the whole match). -/
def expandTemplate (pieces : List Piece) (vals : List (List Char)) : List Char :=
  (pieces.map (fun p =>
    match p with
    | Piece.lit cs => cs
    | Piece.group n => vals.getD n [])).flatten

/-- `re.sub`: replace every non-overlapping match, scanning left to right,
each with the parsed template expanded against that match's groups.  Fueled
by the text length; every match consumes at least the semicolon, so one unit
of fuel per character always suffices. -/
def subAllGo (prop : List Char) (pieces : List Piece) : Nat → List Char → List Char
  | 0, t => t
  | Nat.succ fuel, t =>
    match t with
    | [] => []
    | c :: rest =>
      match matchAt prop t with
      | some (whole, grp, rem) =>
        expandTemplate pieces [whole, grp] ++ subAllGo prop pieces fuel rem
      | none => c :: subAllGo prop pieces fuel rest

/-- `re.sub` of the define pattern (one capture group) over a whole text. -/
def subAll (prop : List Char) (pieces : List Piece) (t : List Char) : List Char :=
  subAllGo prop pieces t.length t

/-- Outcome of the flag loop: the substituted text, a property whose pattern
was not found (exit status 2, lines 282-283), or a replacement template the
`re.sub` of line 287 rejects (uncaught `sre` error, exit status 1). -/
inductive SubstOut where
  | ok (s : List Char)
  | notFound (prop : List Char)
  | badTemplate
deriving DecidableEq, Repr

/-- Lines 273-287: the flag loop of script mode.  Each flag's pattern is
searched in the current (already partially substituted) script text; if
absent the run fails with that property; otherwise `re.sub` parses the
replacement template `<prop> = <value>;` (raising on a bad escape or invalid
group reference) and replaces every match with its expansion, and the loop
continues. -/
def substLoop : List Char → List (List Char × List Char) → SubstOut
  | s, [] => .ok s
  | s, (prop, v) :: rest =>
    if searchFound prop s then
      match parseTemplate 1 (prop ++ (' ' :: '=' :: ' ' :: (v ++ [';']))) with
      | none => .badTemplate
      | some pieces => substLoop (subAll prop pieces s) rest
    else .notFound prop

/-- ASCII letter, the `[a-zA-Z]` class of `MONETATE_FLAG_PATTERN`. -/
def asciiLetter (c : Char) : Bool :=
  ('a' ≤ c && c ≤ 'z') || ('A' ≤ c && c ≤ 'Z')

/-- The `[A-Z0-9_]` class of `MONETATE_FLAG_PATTERN`. -/
def constChar (c : Char) : Bool :=
  ('A' ≤ c && c ≤ 'Z') || ('0' ≤ c && c ≤ '9') || c == '_'

/-- Lines 45-54: `MONETATE_FLAG_RE.match(flag)`, i.e. the verbose pattern
`^(mc\.[a-zA-Z]+\.[A-Z0-9_]+)=(.*)$` without `re.M`: literal `mc.`, a
non-empty letter run, a dot, a non-empty `[A-Z0-9_]` run, `=`, then a value
that may not contain `\n` except as the final character (`$` matches at the
end or just before a trailing newline, which the group excludes).  Returns
the two capture groups (property, value). -/
def monetateFlagMatch (flag : String) : Option (String × String) :=
  match flag.data with
  | 'm' :: 'c' :: '.' :: rest =>
    match rest.takeWhile asciiLetter, rest.dropWhile asciiLetter with
    | [], _ => none
    | letters, '.' :: r2 =>
      (match r2.takeWhile constChar, r2.dropWhile constChar with
      | [], _ => none
      | consts, '=' :: r4 =>
        (match r4.dropWhile (fun c => c != '\n') with
        | [] =>
          some (String.mk ('m' :: 'c' :: '.' :: (letters ++ '.' :: consts)),
            String.mk (r4.takeWhile (fun c => c != '\n')))
        | ['\n'] =>
          some (String.mk ('m' :: 'c' :: '.' :: (letters ++ '.' :: consts)),
            String.mk (r4.takeWhile (fun c => c != '\n')))
        | _ => none)
      | _, _ => none)
    | _, _ => none
  | _ => none

/-- Lines 253-254: the list comprehension matching every `--monetate-flag`;
`none` models the `AttributeError` raised when some flag fails to match. -/
def monetateGroups : List String → Option (List (String × String))
  | [] => some []
  | f :: rest =>
    match monetateFlagMatch f with
    | none => none
    | some g =>
      match monetateGroups rest with
      | none => none
      | some gs => some (g :: gs)

/-- The three values of the `--output_mode` choice option. -/
inductive OutputMode where
  | list
  | script
  | compiled
deriving DecidableEq, Repr

/-- The parsed command-line options the script reads (lines 56-128). -/
structure Options where
  inputs : List String
  namespaces : List String
  roots : List String
  output_mode : OutputMode
  compiler_jar : Option String
  compiler_flags : List String
  monetate_flags : List String

/-- An invocation of the external compiler: the jar, the source paths handed
to it, and the compiler flags. -/
structure CompilerCall where
  jar : String
  paths : List String
  flags : List String
deriving DecidableEq, Repr

/-- The observable outcome of one run: the process exit status (0 on normal
return), everything written to the output pipe, the external compiler
invocation if one was made, and the `logging.error` messages. -/
structure RunResult where
  exitCode : Nat
  output : String
  compilerCall : Option CompilerCall
  errors : List String
deriving DecidableEq, Repr

/-- The environment of one run: the external collaborators and, crucially, the
iteration orders of the two Python `set` objects the script builds, which the
language leaves unspecified.  `scanTree`, `contents`, `abspath`, `compile` and
`resolve` are the boundaries of `treescan.ScanTreeForJsFiles`,
`source.GetFileContents`, `os.path.abspath`, `jscompiler.Compile` and
`depstree.DepsTree.GetDependencies`; the last is modelled from the spec by
`GetDependencies` above, used to instantiate this field in concrete runs. -/
structure Env where
  scanTree : String → List String
  contents : String → String
  abspath : String → String
  compile : String → List String → List String → Option String
  sourceIter : List Src → List Src
  nsIter : List String → List String
  resolve : List (String × Src) → List String → Except ResolveErr (List Src)

/-- Lines 217-219: one `_PathSource` object is created and added per path
yielded by scanning each root, in order.  `_PathSource` defines no `__eq__`
or `__hash__`, so the `set` keys these fresh objects by identity and every
add produces a distinct element: the set's contents are exactly this list. -/
def scannedSources (scan : String → List String) (contents : String → String)
    (roots : List String) : List Src :=
  ((roots.map scan).flatten).map (fun p => ⟨p, contents p⟩)

/-- The `sources` set of line 214 as iterated by the rest of the run: its
contents in the unspecified order chosen by `sourceIter`. -/
def sourcesOf (env : Env) (opts : Options) : List Src :=
  env.sourceIter (scannedSources env.scanTree env.contents opts.roots)

/-- Lines 131-145 (`_GetInputByPath`): the first source whose absolute path
equals the input's absolute path. -/
def findInput (abs : String → String) (sources : List Src) (p : String) : Option Src :=
  sources.find? (fun s => abs p == abs s.path)

/-- Lines 233-239: the `--input` loop.  The first input path matching no
source aborts the run (`.error path`); otherwise the provides of each matched
source are accumulated in order. -/
def collectInputs (abs : String → String) (sources : List Src) :
    List String → Except String (List String)
  | [] => .ok []
  | p :: rest =>
    match findInput abs sources p with
    | none => .error p
    | some s =>
      match collectInputs abs sources rest with
      | .error q => .error q
      | .ok ns => .ok (srcProvides s ++ ns)

/-- The contents of the `input_namespaces` set after lines 232-241 (input
provides then `--namespace` values), when every input matched; `[]` on a
non-matching input (that run aborts before using it). -/
def nsRequest (abs : String → String) (sources : List Src)
    (inputs namespaces : List String) : List String :=
  match collectInputs abs sources inputs with
  | .error _ => []
  | .ok ins => ins ++ namespaces

/-- Lines 148-169 (`_GetClosureBaseFile`): exactly one source classified by
`_IsClosureBaseFile` must exist; zero or more than one is an error carrying
the logged messages. -/
def GetClosureBaseFile (sources : List Src) : Except (List String) Src :=
  match sources.filter IsClosureBaseFile with
  | [] => .error ["No Closure base.js file found."]
  | [b] => .ok b
  | bs => .error ("More than one Closure base.js files found at these paths:" :: bs.map Src.path)

/-- Message of lines 243-246. -/
def noNamespaceMsg : String :=
  "No namespaces found. At least one namespace must be specified with the --namespace or --input flags."

/-- Message of line 256; the interpolated `MONETATE_FLAG_PATTERN` text is
abbreviated to its effective pattern. -/
def invalidFlagMsg : String :=
  "Invalid --monetate_flag passed must match: ^(mc\\.[a-zA-Z]+\\.[A-Z0-9_]+)=(.*)$"

/-- Message of line 261. -/
def dupFlagMsg : String :=
  "Duplicate --monetate-flag passed."

/-- Message of lines 298-299. -/
def jarMsg : String :=
  "--compiler_jar flag must be specified if --output is \"compiled\""

/-- Line 223 wraps a fresh `_PathSource` in `source.Source`, which expects
source text; the descriptor scans its text at creation (spec 3: provides and
requires are "derived once from the text at creation"), so scanning the
non-text object raises an uncaught `TypeError` and the interpreter exits with
status 1.  Modelled from the spec for `source.py`'s creation-time scan. -/
def argWrapMsg : String :=
  "uncaught TypeError: source.Source applied to a source object"

/-- Line 230: `DepsTree(sources)` raising `DuplicateProvideError` (spec 4.2)
is uncaught in `main`, so the interpreter exits with status 1. -/
def dupProvideMsg : String :=
  "uncaught MultipleProvideError from DepsTree construction"

/-- Line 250: resolver errors (spec 4.3) are uncaught in `main`, so the
interpreter exits with status 1. -/
def resolveErrMsg : String :=
  "uncaught depstree resolution error"

/-- Line 287: a replacement template `re.sub` rejects (bad escape, malformed
group name, invalid group reference) raises an uncaught `sre` error, so the
interpreter exits with status 1. -/
def badTemplateMsg : String :=
  "uncaught sre error from the replacement template"

/-- The whole run of `main()` (lines 202-316) on already-parsed options,
positional file arguments, and an environment.  Exits and uncaught exceptions
are the `RunResult` error outcomes; nothing is written before any of them. -/
def mainRun (env : Env) (opts : Options) (args : List String) : RunResult :=
  match args with
  | _ :: _ => ⟨1, "", none, [argWrapMsg]⟩
  | [] =>
    match buildGraph (sourcesOf env opts) with
    | .error _ => ⟨1, "", none, [dupProvideMsg]⟩
    | .ok graph =>
      match collectInputs env.abspath (sourcesOf env opts) opts.inputs with
      | .error p => ⟨1, "", none, ["No source matched input " ++ p]⟩
      | .ok ins =>
        if (ins ++ opts.namespaces).isEmpty then ⟨2, "", none, [noNamespaceMsg]⟩
        else
          match GetClosureBaseFile (sourcesOf env opts) with
          | .error msgs => ⟨1, "", none, msgs⟩
          | .ok base =>
            match env.resolve graph (env.nsIter (ins ++ opts.namespaces)) with
            | .error _ => ⟨1, "", none, [resolveErrMsg]⟩
            | .ok rest =>
              match monetateGroups opts.monetate_flags with
              | none => ⟨2, "", none, [invalidFlagMsg]⟩
              | some groups =>
                if (groups.map Prod.fst).dedup.length ≠ groups.length then
                  ⟨2, "", none, [dupFlagMsg]⟩
                else
                  match opts.output_mode with
                  | .list =>
                    ⟨0, String.join (((base :: rest).map (fun s => s.path ++ "\n"))), none, []⟩
                  | .script =>
                    (match substLoop (String.join ((base :: rest).map Src.text)).data
                        (groups.map (fun p => (p.1.data, p.2.data))) with
                    | .notFound prop =>
                      ⟨2, "", none,
                        ["--monetate-flag: " ++ String.mk prop ++ " was not found in script source."]⟩
                    | .badTemplate => ⟨1, "", none, [badTemplateMsg]⟩
                    | .ok s => ⟨0, String.mk s, none, []⟩)
                  | .compiled =>
                    (match opts.compiler_jar with
                    | none => ⟨2, "", none, [jarMsg]⟩
                    | some jar =>
                      (match env.compile jar ((base :: rest).map Src.path)
                          (opts.compiler_flags ++ opts.monetate_flags.map (fun f => "--define=" ++ f)) with
                      | none => ⟨1, "", none, ["JavaScript compilation failed."]⟩
                      | some cs =>
                        ⟨0, cs,
                          some ⟨jar, (base :: rest).map Src.path,
                            opts.compiler_flags ++ opts.monetate_flags.map (fun f => "--define=" ++ f)⟩,
                          []⟩))

/-! Concrete environments used to evaluate the embedding on closed inputs. -/

/-- The spec-modelled resolver instantiating the `Env.resolve` boundary, with
ample fuel for the small concrete universes below. -/
def specResolver : List (String × Src) → List String → Except ResolveErr (List Src) :=
  fun g req => GetDependencies g 1000 req

/-- Text of a well-formed Closure base file. -/
def baseText : String := "var goog = goog || \x7b\x7d;\n"

/-- A provide declaration line. -/
def provideLine (ns : String) : String := "goog.provide(\"" ++ ns ++ "\");\n"

/-- A small tree: one root with a base file and two independent sources. -/
def demoScan : String → List String :=
  fun r => if r == "r" then ["base.js", "a.js", "b.js"] else []

/-- File contents for `demoScan`. -/
def demoFs : String → String :=
  fun p =>
    if p == "base.js" then baseText
    else if p == "a.js" then provideLine "a"
    else if p == "b.js" then provideLine "b"
    else ""

/-- Environment over the demo tree iterating both sets in insertion order
(`dedup` is the identity on the duplicate-free namespace lists used here). -/
def demoEnv : Env :=
  ⟨demoScan, demoFs, id, fun _ _ _ => none, id, fun l => l.dedup, specResolver⟩

/-- Same environment with the opposite iteration order of the
`input_namespaces` set: both orders are legitimate iterations of the same
unordered Python set. -/
def revEnv : Env :=
  ⟨demoScan, demoFs, id, fun _ _ _ => none, id, fun l => l.dedup.reverse, specResolver⟩

/-- Demo environment whose nsIter is a different function that happens to
agree with demoEnv's on the namespace set this run builds. -/
def demoEnv2 : Env :=
  ⟨demoScan, demoFs, id, fun _ _ _ => none, id,
    fun l => if l = ["a", "b"] then ["a", "b"] else [], specResolver⟩

/-- Demo environment whose external compiler succeeds. -/
def compEnv : Env :=
  ⟨demoScan, demoFs, id, fun _ _ _ => some "COMPILED-OUTPUT", id,
    fun l => l.dedup, specResolver⟩

/-- Demo tree without any base file. -/
def noBaseScan : String → List String :=
  fun r => if r == "r" then ["a.js", "b.js"] else []

/-- Environment over the baseless tree. -/
def noBaseEnv : Env :=
  ⟨noBaseScan, demoFs, id, fun _ _ _ => none, id, fun l => l.dedup, specResolver⟩

/-- Requesting both independent namespaces, listing mode. -/
def abOpts : Options := ⟨[], ["a", "b"], ["r"], .list, none, [], []⟩

/-- Source text containing `mcXaYB = 1;`, which the literal property
`mc.a.B` never occurs in, but which the unescaped-dot pattern built from
`mc.a.B` matches. -/
def wildText : String := "goog.provide(\"a\");\nmcXaYB = 1;\n"

/-- Tree for the wildcard substitution run. -/
def wildScan : String → List String :=
  fun r => if r == "r" then ["base.js", "a.js"] else []

/-- File contents for `wildScan`. -/
def wildFs : String → String :=
  fun p =>
    if p == "base.js" then baseText
    else if p == "a.js" then wildText
    else ""

/-- Environment of the wildcard substitution run. -/
def wildEnv : Env :=
  ⟨wildScan, wildFs, id, fun _ _ _ => none, id, fun l => l.dedup, specResolver⟩

/-- Script mode with the feature flag `mc.a.B=2`. -/
def wildOpts : Options := ⟨[], ["a"], ["r"], .script, none, [], ["mc.a.B=2"]⟩

/-- The concatenation, in dependency order with the base file first, of the
raw texts of the wildcard run's result sources. -/
def wildConcat : String := baseText ++ wildText

/-- Two roots whose scans both yield the same file. -/
def dupScan : String → List String :=
  fun r => if r == "r1" then ["d/a.js"] else if r == "r2" then ["d/a.js"] else []

/-- File contents for `dupScan`. -/
def dupFs : String → String :=
  fun p => if p == "d/a.js" then provideLine "a" else ""

/-- Environment with overlapping roots. -/
def dupEnv : Env :=
  ⟨dupScan, dupFs, id, fun _ _ _ => none, id, fun l => l.dedup, specResolver⟩

/-- Scanning both overlapping roots, listing mode. -/
def dupOpts : Options := ⟨[], ["a"], ["r1", "r2"], .list, none, [], []⟩

/-! Helper lemmas shared by the claim theorems. -/

/-- A Boolean filter yielding a singleton pins down the unique satisfying
element of the list. -/
theorem filter_singleton_mem {α : Type} (p : α → Bool) (l : List α) (b : α)
    (h : l.filter p = [b]) : p b = true ∧ ∀ s ∈ l, p s = true → s = b := by
  constructor
  · have hb : b ∈ l.filter p := by rw [h]; simp
    exact (List.mem_filter.mp hb).2
  · intro s hs hps
    have hsf : s ∈ l.filter p := List.mem_filter.mpr ⟨hs, hps⟩
    rw [h] at hsf
    simpa using hsf

/-- `_GetClosureBaseFile` succeeds exactly when the filter is a singleton. -/
theorem getClosureBaseFile_filter (l : List Src) (b : Src)
    (h : GetClosureBaseFile l = Except.ok b) : l.filter IsClosureBaseFile = [b] := by
  unfold GetClosureBaseFile at h
  rcases hf : l.filter IsClosureBaseFile with _ | ⟨x, _ | ⟨y, t⟩⟩ <;> rw [hf] at h
  · simp at h
  · simp at h
    rw [h]
  · simp at h

/-- The deduplicated length equals the length exactly for duplicate-free
lists; this is the `len(set(xs)) != len(xs)` check of line 260. -/
theorem dedup_length_eq_iff {α : Type} [DecidableEq α] (l : List α) :
    l.dedup.length = l.length ↔ l.Nodup := by
  constructor
  · intro h
    have he : l.dedup = l := (List.dedup_sublist l).eq_of_length h
    rw [← he]
    exact List.nodup_dedup l
  · intro h
    rw [List.dedup_eq_self.mpr h]

/-- The flag comprehension of line 254 raises exactly when some flag fails to
match the pattern. -/
theorem monetateGroups_eq_none (flags : List String) :
    monetateGroups flags = none ↔ ∃ f ∈ flags, monetateFlagMatch f = none := by
  induction flags with
  | nil => simp [monetateGroups]
  | cons f rest ih =>
    cases hf : monetateFlagMatch f with
    | none => simp [monetateGroups, hf]
    | some g =>
      cases hr : monetateGroups rest with
      | none =>
        simp only [monetateGroups, hf, hr]
        simp only [List.mem_cons]
        constructor
        · intro _
          obtain ⟨x, hx, hxn⟩ := ih.mp hr
          exact ⟨x, Or.inr hx, hxn⟩
        · intro _; trivial
      | some gs =>
        simp only [monetateGroups, hf, hr]
        simp only [List.mem_cons]
        constructor
        · intro h; cases h
        · rintro ⟨x, hx | hx, hxn⟩
          · rw [hx] at hxn; rw [hf] at hxn; cases hxn
          · exact absurd (ih.mpr ⟨x, hx, hxn⟩) (by rw [hr]; simp)

/-- The `--input` loop errors with the first path that matches no source. -/
theorem collectInputs_error_of_unmatched (abs : String → String) (sources : List Src)
    (pre : List String) (p : String) (post : List String)
    (hpre : ∀ q ∈ pre, (findInput abs sources q).isSome = true)
    (hp : findInput abs sources p = none) :
    collectInputs abs sources (pre ++ p :: post) = Except.error p := by
  induction pre with
  | nil => simp [collectInputs, hp]
  | cons q qs ih =>
    have hq := hpre q (by simp)
    cases hfq : findInput abs sources q with
    | none => rw [hfq] at hq; simp at hq
    | some s =>
      have hrec : collectInputs abs sources (qs ++ p :: post) = Except.error p :=
        ih (fun x hx => hpre x (by simp [hx]))
      simp [collectInputs, hfq, hrec]

/-! The claim theorems. -/

/-- C10: a discovered source is classified as the base runtime file if and
only if the basename of its path equals `base.js` and at least one line of
its raw text starts with the exact text `var goog = goog || {};`. -/
theorem isClosureBaseFile_iff (s : Src) :
    IsClosureBaseFile s = true ↔
      (basename s.path = "base.js" ∧
        ∃ l ∈ splitLines s.text.data, "var goog = goog || \x7b\x7d;".data <+: l) := by
  simp [IsClosureBaseFile, List.any_eq_true, List.isPrefixOf_iff_prefix]

/-- C3: when the run reaches the base-file check (graph construction
succeeded, all inputs matched, the namespace set is non-empty) and the
discovered sources contain zero base runtime files, or two or more, the
program logs an error and exits with status 1 with no dependency output
produced. -/
theorem base_count_error (env : Env) (opts : Options)
    (g : List (String × Src)) (ins : List String)
    (hg : buildGraph (sourcesOf env opts) = Except.ok g)
    (hin : collectInputs env.abspath (sourcesOf env opts) opts.inputs = Except.ok ins)
    (hne : (ins ++ opts.namespaces).isEmpty = false)
    (hb : ((sourcesOf env opts).filter IsClosureBaseFile).length = 0 ∨
          2 ≤ ((sourcesOf env opts).filter IsClosureBaseFile).length) :
    (mainRun env opts []).exitCode = 1 ∧ (mainRun env opts []).output = "" ∧
    (mainRun env opts []).compilerCall = none ∧ (mainRun env opts []).errors ≠ [] := by
  have hcb : ∃ msgs, GetClosureBaseFile (sourcesOf env opts) = Except.error msgs ∧ msgs ≠ [] := by
    rcases hf : (sourcesOf env opts).filter IsClosureBaseFile with _ | ⟨x, _ | ⟨y, t⟩⟩
    · exact ⟨["No Closure base.js file found."], by simp [GetClosureBaseFile, hf], by simp⟩
    · rw [hf] at hb
      simp at hb
    · exact ⟨"More than one Closure base.js files found at these paths:" ::
        (x :: y :: t).map Src.path, by simp [GetClosureBaseFile, hf], by simp⟩
  obtain ⟨msgs, hcb, hmsgs⟩ := hcb
  simp [mainRun, hg, hin, hne, hcb, hmsgs]

/-- C4: when graph construction succeeded and every `--input` matched, an
empty combined namespace set makes the program log an error and exit with
status 2, for any resolver whatsoever — the resolver is never consulted. -/
theorem empty_namespace_exit (env : Env) (opts : Options)
    (g : List (String × Src)) (ins : List String)
    (hg : buildGraph (sourcesOf env opts) = Except.ok g)
    (hin : collectInputs env.abspath (sourcesOf env opts) opts.inputs = Except.ok ins)
    (hemp : ins ++ opts.namespaces = []) :
    (∀ r, mainRun ⟨env.scanTree, env.contents, env.abspath, env.compile,
        env.sourceIter, env.nsIter, r⟩ opts [] = ⟨2, "", none, [noNamespaceMsg]⟩) ∧
    mainRun env opts [] = ⟨2, "", none, [noNamespaceMsg]⟩ := by
  obtain ⟨sc, co, ab, cp, si, ni, re⟩ := env
  simp only [sourcesOf] at hg hin
  have hmain : ∀ r, mainRun ⟨sc, co, ab, cp, si, ni, r⟩ opts [] =
      ⟨2, "", none, [noNamespaceMsg]⟩ := by
    intro r
    simp [mainRun, sourcesOf, hg, hin, hemp]
  exact ⟨hmain, hmain re⟩

/-- C5: once the run reaches the flag validation (lines 252-262), a
`--monetate-flag` argument that does not match `mc.<module>.<CONSTANT>=<value>`
makes the program exit with status 2, and two flag arguments naming the same
property make it exit with status 2; in both cases nothing is written and no
compiler is invoked. -/
theorem monetate_flag_errors (env : Env) (opts : Options)
    (g : List (String × Src)) (ins : List String) (b : Src) (rest : List Src)
    (hg : buildGraph (sourcesOf env opts) = Except.ok g)
    (hin : collectInputs env.abspath (sourcesOf env opts) opts.inputs = Except.ok ins)
    (hne : (ins ++ opts.namespaces).isEmpty = false)
    (hb : GetClosureBaseFile (sourcesOf env opts) = Except.ok b)
    (hr : env.resolve g (env.nsIter (ins ++ opts.namespaces)) = Except.ok rest) :
    ((∃ f ∈ opts.monetate_flags, monetateFlagMatch f = none) →
      mainRun env opts [] = ⟨2, "", none, [invalidFlagMsg]⟩) ∧
    (∀ gs, monetateGroups opts.monetate_flags = some gs →
      ¬ (gs.map Prod.fst).Nodup →
      mainRun env opts [] = ⟨2, "", none, [dupFlagMsg]⟩) := by
  constructor
  · intro hbad
    have hm : monetateGroups opts.monetate_flags = none :=
      (monetateGroups_eq_none opts.monetate_flags).mpr hbad
    simp [mainRun, hg, hin, hne, hb, hr, hm]
  · intro gs hm hdup
    have hlen : (gs.map Prod.fst).dedup.length ≠ gs.length := by
      rw [← List.length_map gs Prod.fst]
      intro h
      exact hdup ((dedup_length_eq_iff (gs.map Prod.fst)).mp h)
    simp [mainRun, hg, hin, hne, hb, hr, hm, hlen]

/-- C7: a `--input` path matching no discovered source by absolute-path
comparison, all earlier inputs having matched, makes the program log an error
naming the path and exit with status 1, with nothing written. -/
theorem unmatched_input_exit (env : Env) (opts : Options)
    (g : List (String × Src)) (pre : List String) (p : String) (post : List String)
    (hg : buildGraph (sourcesOf env opts) = Except.ok g)
    (hsplit : opts.inputs = pre ++ p :: post)
    (hpre : ∀ q ∈ pre, ∃ s ∈ sourcesOf env opts, env.abspath q = env.abspath s.path)
    (hp : ∀ s ∈ sourcesOf env opts, env.abspath p ≠ env.abspath s.path) :
    mainRun env opts [] = ⟨1, "", none, ["No source matched input " ++ p]⟩ := by
  have hpre' : ∀ q ∈ pre, (findInput env.abspath (sourcesOf env opts) q).isSome = true := by
    intro q hq
    obtain ⟨s, hs, he⟩ := hpre q hq
    simp only [findInput]
    rw [List.find?_isSome]
    exact ⟨s, hs, by simp [he]⟩
  have hp' : findInput env.abspath (sourcesOf env opts) p = none := by
    simp only [findInput]
    rw [List.find?_eq_none]
    intro s hs
    simp [hp s hs]
  have hin : collectInputs env.abspath (sourcesOf env opts) opts.inputs = Except.error p := by
    rw [hsplit]
    exact collectInputs_error_of_unmatched env.abspath (sourcesOf env opts) pre p post hpre' hp'
  simp [mainRun, hg, hin]

/-- C6 (amended): in script output mode a successful run writes the
concatenation, in dependency order with the base file first, of the raw texts
of the result sources, transformed by the flag loop `substLoop`: for each flag
`mc.X=V` in order, the pattern `mc.X\s*=\s*(.*)\s*;` — with the property's
dots left unescaped, so each `.` matches any character, and the group matched
greedily to a reachable terminating semicolon — is searched in the current,
already partially substituted text; every match is replaced by the expansion
of the replacement template `mc.X = V;` under Python's replacement-escape
rules (`\1` and `\g<n>` insert the match's captured groups, `\n` and the
other character escapes their characters, octal escapes their characters,
unknown escapes pass through, and a bad escape or invalid group reference
aborts the run with status 1); if the pattern finds no match the program
exits with status 2 writing nothing. -/
theorem script_mode_output (env : Env) (opts : Options)
    (g : List (String × Src)) (ins : List String) (b : Src) (rest : List Src)
    (gs : List (String × String))
    (hg : buildGraph (sourcesOf env opts) = Except.ok g)
    (hin : collectInputs env.abspath (sourcesOf env opts) opts.inputs = Except.ok ins)
    (hne : (ins ++ opts.namespaces).isEmpty = false)
    (hb : GetClosureBaseFile (sourcesOf env opts) = Except.ok b)
    (hr : env.resolve g (env.nsIter (ins ++ opts.namespaces)) = Except.ok rest)
    (hm : monetateGroups opts.monetate_flags = some gs)
    (hnd : (gs.map Prod.fst).Nodup)
    (hmode : opts.output_mode = OutputMode.script) :
    mainRun env opts [] =
      (match substLoop (String.join ((b :: rest).map Src.text)).data
          (gs.map (fun q => (q.1.data, q.2.data))) with
      | SubstOut.notFound prop =>
        ⟨2, "", none,
          ["--monetate-flag: " ++ String.mk prop ++ " was not found in script source."]⟩
      | SubstOut.badTemplate => ⟨1, "", none, [badTemplateMsg]⟩
      | SubstOut.ok s => ⟨0, String.mk s, none, []⟩) := by
  have hlen : (gs.map Prod.fst).dedup.length = gs.length := by
    rw [← List.length_map gs Prod.fst]
    exact (dedup_length_eq_iff (gs.map Prod.fst)).mpr hnd
  cases hsub : substLoop (String.join ((b :: rest).map Src.text)).data
      (gs.map (fun q => (q.1.data, q.2.data))) with
  | notFound prop =>
    have hsub' := hsub
    simp at hsub'
    simp [mainRun, hg, hin, hne, hb, hr, hm, hlen, hmode, hsub']
  | badTemplate =>
    have hsub' := hsub
    simp at hsub'
    simp [mainRun, hg, hin, hne, hb, hr, hm, hlen, hmode, hsub']
  | ok s =>
    have hsub' := hsub
    simp at hsub'
    simp [mainRun, hg, hin, hne, hb, hr, hm, hlen, hmode, hsub']

/-- C8: in compiled output mode (once the run reaches the mode dispatch) the
program exits with status 2 when no `--compiler_jar` was given; exits with
status 1 when the external compiler invocation fails; and on compiler success
writes the compiled output and exits with status 0. -/
theorem compiled_mode_exits (env : Env) (opts : Options)
    (g : List (String × Src)) (ins : List String) (b : Src) (rest : List Src)
    (gs : List (String × String))
    (hg : buildGraph (sourcesOf env opts) = Except.ok g)
    (hin : collectInputs env.abspath (sourcesOf env opts) opts.inputs = Except.ok ins)
    (hne : (ins ++ opts.namespaces).isEmpty = false)
    (hb : GetClosureBaseFile (sourcesOf env opts) = Except.ok b)
    (hr : env.resolve g (env.nsIter (ins ++ opts.namespaces)) = Except.ok rest)
    (hm : monetateGroups opts.monetate_flags = some gs)
    (hnd : (gs.map Prod.fst).Nodup)
    (hmode : opts.output_mode = OutputMode.compiled) :
    (opts.compiler_jar = none → mainRun env opts [] = ⟨2, "", none, [jarMsg]⟩) ∧
    (∀ jar, opts.compiler_jar = some jar →
      env.compile jar ((b :: rest).map Src.path)
        (opts.compiler_flags ++ opts.monetate_flags.map (fun f => "--define=" ++ f)) = none →
      mainRun env opts [] = ⟨1, "", none, ["JavaScript compilation failed."]⟩) ∧
    (∀ jar cs, opts.compiler_jar = some jar →
      env.compile jar ((b :: rest).map Src.path)
        (opts.compiler_flags ++ opts.monetate_flags.map (fun f => "--define=" ++ f)) = some cs →
      mainRun env opts [] =
        ⟨0, cs, some ⟨jar, (b :: rest).map Src.path,
          opts.compiler_flags ++ opts.monetate_flags.map (fun f => "--define=" ++ f)⟩, []⟩) := by
  have hlen : (gs.map Prod.fst).dedup.length = gs.length := by
    rw [← List.length_map gs Prod.fst]
    exact (dedup_length_eq_iff (gs.map Prod.fst)).mpr hnd
  refine ⟨fun hjar => ?_, fun jar hjar hc => ?_, fun jar cs hjar hc => ?_⟩
  · simp [mainRun, hg, hin, hne, hb, hr, hm, hlen, hmode, hjar]
  · simp only [List.map_cons] at hc
    simp [mainRun, hg, hin, hne, hb, hr, hm, hlen, hmode, hjar, hc]
  · simp only [List.map_cons] at hc
    simp [mainRun, hg, hin, hne, hb, hr, hm, hlen, hmode, hjar, hc]

/-- C1: for every successful run (exit status 0), in every output mode, the
ordered dependency output begins with the single base runtime file, prepended
ahead of the computed order returned by the resolver: the listed paths, the
text concatenated for the script (before flag substitution), and the compiler
input list all start with the unique base file. -/
theorem base_runtime_prepended (env : Env) (opts : Options) (args : List String)
    (h0 : (mainRun env opts args).exitCode = 0) :
    ∃ b rest,
      IsClosureBaseFile b = true ∧
      (∀ s ∈ sourcesOf env opts, IsClosureBaseFile s = true → s = b) ∧
      (∃ g ins, buildGraph (sourcesOf env opts) = Except.ok g ∧
        collectInputs env.abspath (sourcesOf env opts) opts.inputs = Except.ok ins ∧
        env.resolve g (env.nsIter (ins ++ opts.namespaces)) = Except.ok rest) ∧
      (opts.output_mode = OutputMode.list →
        (mainRun env opts args).output =
          String.join ((b :: rest).map (fun s => s.path ++ "\n"))) ∧
      (opts.output_mode = OutputMode.script →
        ∃ gs t,
          monetateGroups opts.monetate_flags = some gs ∧
          substLoop (String.join ((b :: rest).map Src.text)).data
            (gs.map (fun q => (q.1.data, q.2.data))) = SubstOut.ok t ∧
          (mainRun env opts args).output = String.mk t) ∧
      (opts.output_mode = OutputMode.compiled →
        ∃ c, (mainRun env opts args).compilerCall = some c ∧
          c.paths = (b :: rest).map Src.path) := by
  cases args with
  | cons a as => simp [mainRun] at h0
  | nil =>
  cases hg : buildGraph (sourcesOf env opts) with
  | error e => simp [mainRun, hg] at h0
  | ok g =>
  cases hin : collectInputs env.abspath (sourcesOf env opts) opts.inputs with
  | error p => simp [mainRun, hg, hin] at h0
  | ok ins =>
  cases hne : (ins ++ opts.namespaces).isEmpty with
  | true => simp [mainRun, hg, hin, hne] at h0
  | false =>
  cases hb : GetClosureBaseFile (sourcesOf env opts) with
  | error msgs => simp [mainRun, hg, hin, hne, hb] at h0
  | ok b =>
  cases hr : env.resolve g (env.nsIter (ins ++ opts.namespaces)) with
  | error e => simp [mainRun, hg, hin, hne, hb, hr] at h0
  | ok rest =>
  cases hm : monetateGroups opts.monetate_flags with
  | none => simp [mainRun, hg, hin, hne, hb, hr, hm] at h0
  | some gs =>
  by_cases hlen : (gs.map Prod.fst).dedup.length = gs.length
  case neg => simp [mainRun, hg, hin, hne, hb, hr, hm, hlen] at h0
  case pos =>
  have hfil := getClosureBaseFile_filter (sourcesOf env opts) b hb
  obtain ⟨hbase, huniq⟩ := filter_singleton_mem IsClosureBaseFile (sourcesOf env opts) b hfil
  refine ⟨b, rest, hbase, huniq, ⟨g, ins, rfl, rfl, hr⟩, ?_, ?_, ?_⟩
  · intro hmode
    simp [mainRun, hg, hin, hne, hb, hr, hm, hlen, hmode]
  · intro hmode
    cases hsub : substLoop (String.join ((b :: rest).map Src.text)).data
        (gs.map (fun q => (q.1.data, q.2.data))) with
    | notFound prop =>
      have hsub' := hsub
      simp at hsub'
      simp [mainRun, hg, hin, hne, hb, hr, hm, hlen, hmode, hsub'] at h0
    | badTemplate =>
      have hsub' := hsub
      simp at hsub'
      simp [mainRun, hg, hin, hne, hb, hr, hm, hlen, hmode, hsub'] at h0
    | ok t =>
      refine ⟨gs, t, rfl, hsub, ?_⟩
      have hsub' := hsub
      simp at hsub'
      simp [mainRun, hg, hin, hne, hb, hr, hm, hlen, hmode, hsub']
  · intro hmode
    cases hjar : opts.compiler_jar with
    | none => simp [mainRun, hg, hin, hne, hb, hr, hm, hlen, hmode, hjar] at h0
    | some jar =>
    cases hc : env.compile jar ((b :: rest).map Src.path)
        (opts.compiler_flags ++ opts.monetate_flags.map (fun f => "--define=" ++ f)) with
    | none =>
      have hc' := hc
      simp only [List.map_cons] at hc'
      simp [mainRun, hg, hin, hne, hb, hr, hm, hlen, hmode, hjar, hc'] at h0
    | some cs =>
      have hc' := hc
      simp only [List.map_cons] at hc'
      refine ⟨⟨jar, (b :: rest).map Src.path,
        opts.compiler_flags ++ opts.monetate_flags.map (fun f => "--define=" ++ f)⟩, ?_, rfl⟩
      simp [mainRun, hg, hin, hne, hb, hr, hm, hlen, hmode, hjar, hc']

/-- C2 (amended): the output is fully determined by the inputs together with
the iteration orders of the two unordered Python sets the orchestrator builds
(lines 214 and 232): two runs with identical files, roots, flags, and external
collaborators, whose set iterations agree on the actually built `sources` and
`input_namespaces` collections, produce identical results — but nothing more,
since the orchestrator supplies the resolver with sets, not ordered
collections. -/
theorem output_determined_by_set_orders (e1 e2 : Env) (opts : Options) (args : List String)
    (hscan : e1.scanTree = e2.scanTree)
    (hcont : e1.contents = e2.contents)
    (habs : e1.abspath = e2.abspath)
    (hcomp : e1.compile = e2.compile)
    (hres : e1.resolve = e2.resolve)
    (hsi : e1.sourceIter (scannedSources e1.scanTree e1.contents opts.roots) =
           e2.sourceIter (scannedSources e2.scanTree e2.contents opts.roots))
    (hni : e1.nsIter (nsRequest e1.abspath (sourcesOf e1 opts) opts.inputs opts.namespaces) =
           e2.nsIter (nsRequest e2.abspath (sourcesOf e2 opts) opts.inputs opts.namespaces)) :
    mainRun e1 opts args = mainRun e2 opts args := by
  obtain ⟨s1, c1, a1, k1, si1, ni1, r1⟩ := e1
  obtain ⟨s2, c2, a2, k2, si2, ni2, r2⟩ := e2
  simp only at hscan hcont habs hcomp hres hsi hni
  subst hscan hcont habs hcomp hres
  cases args with
  | cons a as => rfl
  | nil =>
  have hsrc : sourcesOf ⟨s1, c1, a1, k1, si1, ni1, r1⟩ opts =
      sourcesOf ⟨s1, c1, a1, k1, si2, ni2, r1⟩ opts := by
    simpa [sourcesOf] using hsi
  rw [sourcesOf] at hsrc
  rw [sourcesOf] at hsrc
  simp only at hsrc
  simp only [mainRun, sourcesOf, hsrc]
  simp only [sourcesOf] at hni
  rw [hsrc] at hni
  cases hgg : buildGraph (si2 (scannedSources s1 c1 opts.roots)) with
  | error e => rfl
  | ok g =>
  cases hcoll : collectInputs a1 (si2 (scannedSources s1 c1 opts.roots)) opts.inputs with
  | error p => rfl
  | ok ins =>
  have hreq : nsRequest a1 (si2 (scannedSources s1 c1 opts.roots)) opts.inputs opts.namespaces =
      ins ++ opts.namespaces := by
    simp [nsRequest, hcoll]
  rw [hreq] at hni
  cases hne : (ins ++ opts.namespaces).isEmpty with
  | true => simp [hne]
  | false =>
  simp only [hne]
  rw [hni]

/-- C2 is false as stated: two runs with identical, order-stable inputs (the
same roots scanned to the same files with the same contents, the same flags)
differ byte for byte when the unordered `input_namespaces` set happens to be
iterated in a different order — both orders below are permutations of the same
two-element set — because the orchestrator supplies Python sets, not ordered
collections, to the resolver. -/
theorem set_iteration_changes_output :
    demoEnv.scanTree = revEnv.scanTree ∧ demoEnv.contents = revEnv.contents ∧
    demoEnv.abspath = revEnv.abspath ∧ demoEnv.compile = revEnv.compile ∧
    demoEnv.sourceIter = revEnv.sourceIter ∧ demoEnv.resolve = revEnv.resolve ∧
    nsRequest demoEnv.abspath (sourcesOf demoEnv abOpts) abOpts.inputs abOpts.namespaces
      = ["a", "b"] ∧
    nsRequest revEnv.abspath (sourcesOf revEnv abOpts) abOpts.inputs abOpts.namespaces
      = ["a", "b"] ∧
    (demoEnv.nsIter ["a", "b"]).Perm ["a", "b"] ∧
    (revEnv.nsIter ["a", "b"]).Perm ["a", "b"] ∧
    (mainRun demoEnv abOpts []).output ≠ (mainRun revEnv abOpts []).output := by
  refine ⟨rfl, rfl, rfl, rfl, rfl, rfl, by decide, by decide, ?_, ?_, by decide⟩
  · decide
  · decide

/-- C6 is false as stated: in this script-mode run the literal property
`mc.a.B` of the flag `mc.a.B=2` occurs nowhere in the concatenated text of the
result sources — so no definition of the form `mc.a.B = <anything>;` exists
and the claim demands exit status 2 — yet the program exits with status 0,
because the pattern it builds leaves the property's dots unescaped and
`mcXaYB = 1;` matches it; the output is the concatenation with that unrelated
statement rewritten to `mc.a.B = 2;`, not the concatenation the claim
describes. -/
theorem script_substitution_cex :
    ¬ ("mc.a.B".data <:+: wildConcat.data) ∧
    GetClosureBaseFile (sourcesOf wildEnv wildOpts) = Except.ok ⟨"base.js", baseText⟩ ∧
    buildGraph (sourcesOf wildEnv wildOpts) = Except.ok [("a", ⟨"a.js", wildText⟩)] ∧
    wildEnv.resolve [("a", ⟨"a.js", wildText⟩)] (wildEnv.nsIter (nsRequest wildEnv.abspath
      (sourcesOf wildEnv wildOpts) wildOpts.inputs wildOpts.namespaces))
      = Except.ok [⟨"a.js", wildText⟩] ∧
    wildConcat = String.join (((⟨"base.js", baseText⟩ : Src) :: [⟨"a.js", wildText⟩]).map Src.text) ∧
    (mainRun wildEnv wildOpts []).exitCode = 0 ∧
    (mainRun wildEnv wildOpts []).output ≠ wildConcat ∧
    (mainRun wildEnv wildOpts []).output =
      baseText ++ "goog.provide(\"a\");\nmc.a.B = 2;\n" := by
  refine ⟨by decide, rfl, rfl, rfl, by decide, by decide, by decide, by decide⟩

/-- C9: the collection handed to dependency-graph construction is not
deduplicated by origin identity.  Scanning two roots that both contain the
file `d/a.js` yields one fresh `_PathSource` per contribution, and the
identity-keyed `sources` set keeps both, so graph construction receives the
same file twice, raises a duplicate-provide error for its namespace, and the
run aborts with status 1.  A source contributed as an explicit file argument
does not retain its path at all: line 223 wraps it in a second descriptor,
whose creation-time scan of a non-text object aborts the run. -/
theorem sources_not_deduplicated :
    scannedSources dupScan dupFs ["r1", "r2"] =
      [⟨"d/a.js", provideLine "a"⟩, ⟨"d/a.js", provideLine "a"⟩] ∧
    sourcesOf dupEnv dupOpts = [⟨"d/a.js", provideLine "a"⟩, ⟨"d/a.js", provideLine "a"⟩] ∧
    buildGraph (sourcesOf dupEnv dupOpts) =
      Except.error (GraphErr.duplicateProvide "a" ⟨"d/a.js", provideLine "a"⟩
        ⟨"d/a.js", provideLine "a"⟩) ∧
    mainRun dupEnv dupOpts [] = ⟨1, "", none, [dupProvideMsg]⟩ ∧
    mainRun dupEnv dupOpts ["x.js"] = ⟨1, "", none, [argWrapMsg]⟩ := by
  refine ⟨by decide, by decide, rfl, by decide, rfl⟩

/-! Witnesses: each hypothesis-bearing claim theorem applied at a concrete
input with its hypotheses discharged there. -/

/-- Witness for C1 at the demo run, whose exit status is 0. -/
theorem base_runtime_prepended_witness :
    (mainRun demoEnv abOpts []).exitCode = 0 ∧
    (∃ b rest,
      IsClosureBaseFile b = true ∧
      (∀ s ∈ sourcesOf demoEnv abOpts, IsClosureBaseFile s = true → s = b) ∧
      (∃ g ins, buildGraph (sourcesOf demoEnv abOpts) = Except.ok g ∧
        collectInputs demoEnv.abspath (sourcesOf demoEnv abOpts) abOpts.inputs = Except.ok ins ∧
        demoEnv.resolve g (demoEnv.nsIter (ins ++ abOpts.namespaces)) = Except.ok rest) ∧
      (abOpts.output_mode = OutputMode.list →
        (mainRun demoEnv abOpts []).output =
          String.join ((b :: rest).map (fun s => s.path ++ "\n"))) ∧
      (abOpts.output_mode = OutputMode.script →
        ∃ gs t,
          monetateGroups abOpts.monetate_flags = some gs ∧
          substLoop (String.join ((b :: rest).map Src.text)).data
            (gs.map (fun q => (q.1.data, q.2.data))) = SubstOut.ok t ∧
          (mainRun demoEnv abOpts []).output = String.mk t) ∧
      (abOpts.output_mode = OutputMode.compiled →
        ∃ c, (mainRun demoEnv abOpts []).compilerCall = some c ∧
          c.paths = (b :: rest).map Src.path)) :=
  ⟨by decide, base_runtime_prepended demoEnv abOpts [] (by decide)⟩

/-- Witness for the amended C2: two environments whose iterator functions
differ but agree on the actually built sets produce identical runs. -/
theorem output_determined_by_set_orders_witness :
    demoEnv.nsIter (nsRequest demoEnv.abspath (sourcesOf demoEnv abOpts)
      abOpts.inputs abOpts.namespaces) =
      demoEnv2.nsIter (nsRequest demoEnv2.abspath (sourcesOf demoEnv2 abOpts)
        abOpts.inputs abOpts.namespaces) ∧
    mainRun demoEnv abOpts [] = mainRun demoEnv2 abOpts [] :=
  ⟨by decide,
    output_determined_by_set_orders demoEnv demoEnv2 abOpts [] rfl rfl rfl rfl rfl rfl
      (by decide)⟩

/-- Witness for C3 at a tree containing no base file. -/
theorem base_count_error_witness :
    ((sourcesOf noBaseEnv abOpts).filter IsClosureBaseFile).length = 0 ∧
    ((mainRun noBaseEnv abOpts []).exitCode = 1 ∧ (mainRun noBaseEnv abOpts []).output = "" ∧
      (mainRun noBaseEnv abOpts []).compilerCall = none ∧
      (mainRun noBaseEnv abOpts []).errors ≠ []) :=
  ⟨by decide,
    base_count_error noBaseEnv abOpts
      [("a", ⟨"a.js", provideLine "a"⟩), ("b", ⟨"b.js", provideLine "b"⟩)] [] rfl rfl
      (by decide) (Or.inl (by decide))⟩

/-- Witness for C4 at a run given neither `--namespace` values nor inputs. -/
theorem empty_namespace_exit_witness :
    mainRun demoEnv ⟨[], [], ["r"], OutputMode.list, none, [], []⟩ [] =
      ⟨2, "", none, [noNamespaceMsg]⟩ :=
  (empty_namespace_exit demoEnv ⟨[], [], ["r"], OutputMode.list, none, [], []⟩
    [("a", ⟨"a.js", provideLine "a"⟩), ("b", ⟨"b.js", provideLine "b"⟩)] [] rfl rfl rfl).2

/-- Witness for C5 at a run passing the malformed flag `bad`. -/
theorem monetate_flag_errors_witness :
    monetateFlagMatch "bad" = none ∧
    mainRun demoEnv ⟨[], ["a"], ["r"], OutputMode.list, none, [], ["bad"]⟩ [] =
      ⟨2, "", none, [invalidFlagMsg]⟩ :=
  ⟨by decide,
    (monetate_flag_errors demoEnv ⟨[], ["a"], ["r"], OutputMode.list, none, [], ["bad"]⟩
      [("a", ⟨"a.js", provideLine "a"⟩), ("b", ⟨"b.js", provideLine "b"⟩)] []
      ⟨"base.js", baseText⟩ [⟨"a.js", provideLine "a"⟩] rfl rfl (by decide) rfl rfl).1
      ⟨"bad", by decide, by decide⟩⟩

/-- Witness for the amended C6: once at the wildcard run with the literal
value `2`, and once with the value `\1x`, whose template backreference makes
the program re-insert the matched group (the output rewrites `mcXaYB = 1;`
to `mc.a.B = 1x;`). -/
theorem script_mode_output_witness :
    (mainRun wildEnv wildOpts [] =
      (match substLoop (String.join (((⟨"base.js", baseText⟩ : Src) ::
          [⟨"a.js", wildText⟩]).map Src.text)).data
          ([("mc.a.B", "2")].map (fun q => (q.1.data, q.2.data))) with
      | SubstOut.notFound prop =>
        ⟨2, "", none,
          ["--monetate-flag: " ++ String.mk prop ++ " was not found in script source."]⟩
      | SubstOut.badTemplate => ⟨1, "", none, [badTemplateMsg]⟩
      | SubstOut.ok s => ⟨0, String.mk s, none, []⟩)) ∧
    (mainRun wildEnv ⟨[], ["a"], ["r"], OutputMode.script, none, [], ["mc.a.B=\\1x"]⟩ [] =
      (match substLoop (String.join (((⟨"base.js", baseText⟩ : Src) ::
          [⟨"a.js", wildText⟩]).map Src.text)).data
          ([("mc.a.B", "\\1x")].map (fun q => (q.1.data, q.2.data))) with
      | SubstOut.notFound prop =>
        ⟨2, "", none,
          ["--monetate-flag: " ++ String.mk prop ++ " was not found in script source."]⟩
      | SubstOut.badTemplate => ⟨1, "", none, [badTemplateMsg]⟩
      | SubstOut.ok s => ⟨0, String.mk s, none, []⟩)) ∧
    (mainRun wildEnv ⟨[], ["a"], ["r"], OutputMode.script, none, [], ["mc.a.B=\\1x"]⟩ []).output =
      baseText ++ "goog.provide(\"a\");\nmc.a.B = 1x;\n" :=
  ⟨script_mode_output wildEnv wildOpts [("a", ⟨"a.js", wildText⟩)] []
    ⟨"base.js", baseText⟩ [⟨"a.js", wildText⟩] [("mc.a.B", "2")]
    rfl rfl (by decide) rfl rfl rfl (by decide) rfl,
  script_mode_output wildEnv ⟨[], ["a"], ["r"], OutputMode.script, none, [], ["mc.a.B=\\1x"]⟩
    [("a", ⟨"a.js", wildText⟩)] [] ⟨"base.js", baseText⟩ [⟨"a.js", wildText⟩]
    [("mc.a.B", "\\1x")] rfl rfl (by decide) rfl rfl rfl (by decide) rfl,
  by decide⟩

/-- Witness for C7 at a run naming the unmatched input `c.js`. -/
theorem unmatched_input_exit_witness :
    (∀ s ∈ sourcesOf demoEnv ⟨["c.js"], ["a"], ["r"], OutputMode.list, none, [], []⟩,
      demoEnv.abspath "c.js" ≠ demoEnv.abspath s.path) ∧
    mainRun demoEnv ⟨["c.js"], ["a"], ["r"], OutputMode.list, none, [], []⟩ [] =
      ⟨1, "", none, ["No source matched input " ++ "c.js"]⟩ :=
  ⟨by decide,
    unmatched_input_exit demoEnv ⟨["c.js"], ["a"], ["r"], OutputMode.list, none, [], []⟩
      [("a", ⟨"a.js", provideLine "a"⟩), ("b", ⟨"b.js", provideLine "b"⟩)]
      [] "c.js" [] rfl rfl (by simp) (by decide)⟩

/-- Witness for C8 at a compiled-mode run whose external compiler succeeds. -/
theorem compiled_mode_exits_witness :
    compEnv.compile "c.jar"
      (((⟨"base.js", baseText⟩ : Src) :: [⟨"a.js", provideLine "a"⟩]).map Src.path)
      (["-O"] ++ ([] : List String).map (fun f => "--define=" ++ f)) = some "COMPILED-OUTPUT" ∧
    mainRun compEnv ⟨[], ["a"], ["r"], OutputMode.compiled, some "c.jar", ["-O"], []⟩ [] =
      ⟨0, "COMPILED-OUTPUT",
        some ⟨"c.jar", ((⟨"base.js", baseText⟩ : Src) :: [⟨"a.js", provideLine "a"⟩]).map Src.path,
          ["-O"] ++ ([] : List String).map (fun f => "--define=" ++ f)⟩, []⟩ :=
  ⟨rfl,
    (compiled_mode_exits compEnv ⟨[], ["a"], ["r"], OutputMode.compiled, some "c.jar", ["-O"], []⟩
      [("a", ⟨"a.js", provideLine "a"⟩), ("b", ⟨"b.js", provideLine "b"⟩)] []
      ⟨"base.js", baseText⟩ [⟨"a.js", provideLine "a"⟩] []
      rfl rfl (by decide) rfl rfl rfl (by simp) rfl).2.2 "c.jar" "COMPILED-OUTPUT" rfl rfl⟩

end ClosureBuilder
